import Mathlib

/-!
Shallow embedding of the ton-client-py binding.

Sources embedded here:
- tonsdk/lib.py: low-level ctypes client (platform resolution, request
  dispatch, response envelope, string-format adapter, default setup record);
- tonsdk/client.py: high-level client (default setup record, config merge,
  setup dispatch on init, context destruction);
- the subscription suspend and resume delivery semantics exercised by
  tonclient/test/test_net.py, whose implementing module is not part of the
  given sources and is therefore modelled from the spec.

The native engine (the shared library reached through ctypes) is opaque to
the binding; it is modelled as a record of response functions, and the
binding operations additionally return the trace of engine calls they make,
so that resource-release and lifecycle properties can be stated.
-/

/-- Value type for the Python configuration dictionaries in the sources.
Python float literals are kept as their decimal notation, mantissa and
power of ten, so that 1.5 is represented exactly as flt 15 1. -/
inductive ConfigVal where
  | str (s : String)
  | int (n : Int)
  | flt (mantissa : Int) (exp : Nat)
  | strList (xs : List String)
deriving DecidableEq

/-- True exactly on values that are Python lists. -/
def ConfigVal.isList : ConfigVal → Bool
  | .strList _ => true
  | _ => false

/-- Python dict merge as written in tonsdk/client.py line 45: the double-splat
expression spreads the defaults first and the caller config second, so a key
present in both takes the caller value, and keys only in the defaults keep
the default value. Dictionaries are association lists; lookups take the
first matching key. -/
def pyDictMerge (d c : List (String × ConfigVal)) : List (String × ConfigVal) :=
  d.map (fun kv =>
    match c.lookup kv.1 with
    | some v => (kv.1, v)
    | none => kv)
  ++ c.filter (fun kv => (d.lookup kv.1).isNone)

/-- First component of the lookup over an appended association list. -/
theorem lookup_append_eq {α β : Type} [BEq α] (l1 l2 : List (α × β)) (k : α) :
    List.lookup k (l1 ++ l2) =
      match List.lookup k l1 with
      | some v => some v
      | none => List.lookup k l2 := by
  induction l1 with
  | nil => simp [List.lookup]
  | cons hd tl ih =>
      by_cases h : k == hd.1
      · simp [List.lookup, h]
      · simp only [List.cons_append, List.lookup, h]
        exact ih

/-- Lookup over the overridden copy of the defaults inside pyDictMerge. -/
theorem lookup_map_override (c d : List (String × ConfigVal)) (k : String) :
    List.lookup k (d.map (fun kv =>
      match c.lookup kv.1 with
      | some v => (kv.1, v)
      | none => kv)) =
      (d.lookup k).map (fun w => (c.lookup k).getD w) := by
  induction d with
  | nil => simp [List.lookup]
  | cons hd tl ih =>
      obtain ⟨a, b⟩ := hd
      by_cases h : k == a
      · have ha : k = a := by simpa using h
        subst ha
        cases hc : c.lookup k <;>
          simp [List.lookup, List.map, hc]
      · cases hc : c.lookup a <;>
          simp only [List.map, List.lookup, hc, h] <;> exact ih

/-- Lookup over the kept remainder of the caller config inside pyDictMerge,
for a key that the defaults do not contain. -/
theorem lookup_filter_of_not_default (c d : List (String × ConfigVal)) (k : String)
    (h : d.lookup k = none) :
    List.lookup k (c.filter (fun kv => (d.lookup kv.1).isNone)) = c.lookup k := by
  induction c with
  | nil => simp
  | cons hd tl ih =>
      obtain ⟨a, b⟩ := hd
      by_cases hk : k == a
      · have ha : k = a := by simpa using hk
        subst ha
        simp [List.filter, h, List.lookup]
      · cases hda : d.lookup a with
        | some w =>
            rw [List.filter_cons]
            simp [hda, List.lookup, hk, ih]
        | none =>
            rw [List.filter_cons]
            simp [hda, List.lookup, hk, ih]

/-- Caller-supplied keys win in the merged dictionary. -/
theorem pyDictMerge_lookup_caller (d c : List (String × ConfigVal)) (k : String)
    (v : ConfigVal) (h : c.lookup k = some v) :
    (pyDictMerge d c).lookup k = some v := by
  unfold pyDictMerge
  rw [lookup_append_eq, lookup_map_override]
  cases hd : d.lookup k with
  | some w => simp [h]
  | none =>
      show List.lookup k (c.filter (fun kv => (d.lookup kv.1).isNone)) = some v
      rw [lookup_filter_of_not_default c d k hd]
      exact h

/-- Keys the caller omits keep the default value in the merged dictionary. -/
theorem pyDictMerge_lookup_default (d c : List (String × ConfigVal)) (k : String)
    (h : c.lookup k = none) :
    (pyDictMerge d c).lookup k = d.lookup k := by
  unfold pyDictMerge
  rw [lookup_append_eq, lookup_map_override]
  cases hd : d.lookup k with
  | some w => simp [h]
  | none =>
      show List.lookup k (c.filter (fun kv => (d.lookup kv.1).isNone)) = none
      rw [lookup_filter_of_not_default c d k hd]
      exact h

/-- Python exceptions raised by the embedded code. Every constructor stands
for a Python builtin exception class: the tonsdk sources define no exception
class of their own, so no raised error belongs to a binding-specific type.
The payload of the exception constructor is the single positional argument
given to the builtin Exception class. -/
inductive PyExc where
  | exception (payload : String)
  | valueError (msg : String)
  | runtimeError (msg : String)
  | jsonDecodeError (msg : String)
deriving DecidableEq

/-- A typed client error would be an exception class defined by the binding,
distinct from the Python builtins. The tonsdk sources define none, so no
constructor of PyExc qualifies. -/
def PyExc.isTypedClientError : PyExc → Bool := fun _ => false

/-- Python str.lower, applied character by character. -/
def pyLower (s : String) : String := ⟨s.data.map Char.toLower⟩

/-- Python str.capitalize: first character upper-cased, the rest lower-cased. -/
def pyCapitalize (s : String) : String :=
  match s.data with
  | [] => ⟨[]⟩
  | c :: cs => ⟨c.toUpper :: cs.map Char.toLower⟩

/-- LIB_VERSION from tonsdk/lib.py line 12. -/
def LibPy.LIB_VERSION : String := "0.25.0"

/-- LIB_DIR from tonsdk/lib.py line 13: the bin directory next to the module.
BASE_DIR is the directory of the module file, an environment input, so it is
a parameter here. -/
def LibPy.LIB_DIR (base_dir : String) : String := base_dir ++ "/bin"

/-- LIB_FILENAME from tonsdk/lib.py line 14. -/
def LibPy.LIB_FILENAME : String := "ton-rust-client-" ++ LibPy.LIB_VERSION

/-- DEVNET_BASE_URL from tonsdk/lib.py line 16. -/
def LibPy.DEVNET_BASE_URL : String := "net.ton.dev"

/-- TON_CLIENT_DEFAULT_SETUP from tonsdk/lib.py lines 18 to 27. -/
def LibPy.TON_CLIENT_DEFAULT_SETUP : List (String × ConfigVal) :=
  [("baseUrl", .str LibPy.DEVNET_BASE_URL),
   ("messageRetriesCount", .int 1),
   ("messageExpirationTimeout", .int 50000),
   ("messageExpirationTimeoutGrowFactor", .flt 15 1),
   ("messageProcessingTimeout", .int 50000),
   ("messageProcessingTimeoutGrowFactor", .flt 15 1),
   ("waitForTimeout", .int 30000),
   ("accessKey", .str "")]

/-- TON_CLIENT_DEFAULT_SETUP from tonsdk/client.py lines 13 to 22. -/
def ClientPy.TON_CLIENT_DEFAULT_SETUP : List (String × ConfigVal) :=
  [("servers", .strList ["http://localhost"]),
   ("messageRetriesCount", .int 1),
   ("messageExpirationTimeout", .int 50000),
   ("messageExpirationTimeoutGrowFactor", .flt 15 1),
   ("messageProcessingTimeout", .int 50000),
   ("messageProcessingTimeoutGrowFactor", .flt 15 1),
   ("waitForTimeout", .int 30000),
   ("accessKey", .str "")]

/-- The lib_ext_dict literal inside get_lib_basename, tonsdk/lib.py. -/
def LibPy.lib_ext_dict : List (String × String) :=
  [("windows", "dll"), ("darwin", "dylib"), ("linux", "so")]

/-- get_lib_basename from tonsdk/lib.py lines 30 to 40. The value returned
by platform.system is an environment input, so it is the parameter system;
the function lower-cases it, looks the result up in lib_ext_dict, raises
RuntimeError when the platform is unmapped, and otherwise joins the library
directory with the versioned filename and the mapped extension. -/
def LibPy.get_lib_basename (base_dir system : String) : Except PyExc String :=
  let plt := pyLower system
  match LibPy.lib_ext_dict.lookup plt with
  | none =>
      .error (.runtimeError
        ("No library for current platform \"" ++ pyCapitalize plt ++ "\""))
  | some ext =>
      .ok (LibPy.LIB_DIR base_dir ++ "/" ++ (LibPy.LIB_FILENAME ++ "." ++ ext))

/-- Trace entries for calls the binding makes into the native engine. -/
inductive EngineCall where
  | createContext
  | destroyContext (ctx : Nat)
  | jsonRequest (ctx : Nat) (method params : String)
  | readJsonResponse (ptr : Nat)
  | destroyJsonResponse (ptr : Nat)
deriving DecidableEq

/-- Modelled from the spec: the read view of InteropJsonResponse. The type
lives in tonsdk/ton_types.py, which is not among the given sources; per the
spec codec, reading the json field decodes the engine payload and can fail
on a malformed response, while is_success is a plain flag. -/
structure InteropJsonResponseRead where
  is_success : Bool
  json : Except String String

/-- The native engine as seen through the ctypes surface used by lib.py: an
opaque record of pure response functions. tc_json_request yields a response
pointer, tc_read_json_response reads the structure behind a pointer. -/
structure Engine where
  tc_create_context : Nat
  tc_json_request : Nat → String → String → Nat
  tc_read_json_response : Nat → InteropJsonResponseRead

/-- The dict literal returned by TonClient._request in tonsdk/lib.py line
121: a success flag under key success and the decoded payload under key
result. -/
structure RequestDict where
  success : Bool
  result : String
deriving DecidableEq

/-- Entry values of the returned dict: the success flag is a bool, the
payload is the decoded response value. -/
inductive EnvEntry where
  | boolEntry (b : Bool)
  | jsonEntry (s : String)
deriving DecidableEq

/-- The returned dict of TonClient._request viewed as an association list:
exactly the keys success and result, in that order. -/
def RequestDict.toAList (d : RequestDict) : List (String × EnvEntry) :=
  [("success", .boolEntry d.success), ("result", .jsonEntry d.result)]

/-- TonClient._request from tonsdk/lib.py lines 88 to 121. The InteropString
marshalling and json.dumps serialization are abstracted: method and params
arrive as the serialized strings handed to the engine. The code is straight
line with no try or finally: it obtains the response pointer, reads the
response structure, evaluates is_success and then the json field, destroys
the response, and returns the dict. Reading the json field is the fallible
decode step of the modelled InteropJsonResponseRead; when it raises, the
exception propagates at that point and the lines after it do not run. The
second component is the trace of engine calls actually made. -/
def TonClient._request (eng : Engine) (context : Nat) (method_name params : String) :
    Except PyExc RequestDict × List EngineCall :=
  let response := eng.tc_json_request context method_name params
  let read := eng.tc_read_json_response response
  let is_success := read.is_success
  match read.json with
  | .error e =>
      (.error (.jsonDecodeError e),
        [.jsonRequest context method_name params, .readJsonResponse response])
  | .ok response_json =>
      (.ok { success := is_success, result := response_json },
        [.jsonRequest context method_name params, .readJsonResponse response,
          .destroyJsonResponse response])

/-- TonClient.request from tonsdk/lib.py lines 143 to 150: dispatches through
the low-level request; when raise_exception is set and the success flag is
false it raises the Python builtin Exception with the result entry of the
dict as its argument, and otherwise returns the result entry. -/
def TonClient.request (eng : Engine) (context : Nat) (method params : String)
    (raise_exception : Bool) : Except PyExc String × List EngineCall :=
  match TonClient._request eng context method params with
  | (.error e, tr) => (.error e, tr)
  | (.ok result, tr) =>
      if raise_exception && !result.success then
        (.error (.exception result.result), tr)
      else
        (.ok result.result, tr)

/-- TYPE_TEXT constant of the TonClient class in tonsdk/lib.py. -/
def TonClient.TYPE_TEXT : String := "text"

/-- TYPE_HEX constant of the TonClient class in tonsdk/lib.py. -/
def TonClient.TYPE_HEX : String := "hex"

/-- TYPE_BASE64 constant of the TonClient class in tonsdk/lib.py. -/
def TonClient.TYPE_BASE64 : String := "base64"

/-- TonClient._str_type_dict from tonsdk/lib.py lines 123 to 141: wraps the
given string in a one-entry dict keyed by the format tag, raising ValueError
on any unknown tag. The source message reads: One of base64, hex, text
should be provided, with the three tags quoted. -/
def TonClient._str_type_dict (string fmt : String) :
    Except PyExc (List (String × String)) :=
  if fmt = TonClient.TYPE_BASE64 then .ok [("base64", string)]
  else if fmt = TonClient.TYPE_HEX then .ok [("hex", string)]
  else if fmt = TonClient.TYPE_TEXT then .ok [("text", string)]
  else .error (.valueError "One of base64, hex, text should be provided")

/-- Initialization chain of the tonsdk TonClient class: the default value of
the lib_path argument evaluates get_lib_basename before anything else, so an
unsupported platform raises before the library is loaded and before
tc_create_context runs. Library loading itself is the opaque ctypes call and
is abstracted as succeeding. The trace lists the engine calls made. -/
def LibPy.TonClient_init (eng : Engine) (base_dir system : String) :
    Except PyExc Nat × List EngineCall :=
  match LibPy.get_lib_basename base_dir system with
  | .error e => (.error e, [])
  | .ok _lib_path => (.ok eng.tc_create_context, [.createContext])

/-- State of the high-level TonClient of tonsdk/client.py: the only handle
the class stores is the context created at init. The module objects each
hold the same context value and carry no further state of their own. -/
structure HLTonClient where
  ctx : Nat
deriving DecidableEq

/-- TonClientBase.setup from tonsdk/client.py lines 26 to 27, issuing one
request with method setup and the given settings on its context. The
TonModule request plumbing lives in tonsdk/module.py, which is not among the
given sources; modelled from the spec: the module facade delegates each
operation as exactly one request on its context, with no transformation. -/
def ClientPy.TonClientBase_setup (ctx : Nat)
    (settings : List (String × ConfigVal)) :
    List (Nat × String × List (String × ConfigVal)) :=
  [(ctx, "setup", settings)]

/-- TonClient.__init__ from tonsdk/client.py lines 35 to 45: stores the
newly created context and calls setup once with the caller config merged
over the defaults by the double-splat dict expression. The created context
value comes from tc_create_context and is a parameter here; the second
component is the list of module-level requests issued during init. -/
def ClientPy.TonClient_init (created_ctx : Nat)
    (config : List (String × ConfigVal)) :
    HLTonClient × List (Nat × String × List (String × ConfigVal)) :=
  (⟨created_ctx⟩,
    ClientPy.TonClientBase_setup created_ctx
      (pyDictMerge ClientPy.TON_CLIENT_DEFAULT_SETUP config))

/-- TonClient.destroy_context from tonsdk/client.py lines 55 to 56: calls
tc_destroy_context with the stored handle and does nothing else; no field of
the client object is cleared or marked, so the client state after the call
equals the state before it. -/
def ClientPy.destroy_context (c : HLTonClient) : HLTonClient × EngineCall :=
  (c, .destroyContext c.ctx)

/-- Inputs seen by a subscription channel over time: a suspend command, a
resume command, or a qualifying event identified by a number. -/
inductive SubInput where
  | pause
  | go
  | ev (n : Nat)
deriving DecidableEq

/-- Modelled from the spec: the delivery state machine of the subscription
channel backing the net module (tonclient net sources are not among the
given files). Per the spec, suspend stops delivery until resume, events
emitted while suspended are dropped and not queued, and after resume only
subsequent events are delivered. The pause input is the suspend call, the go
input is the resume call. The state is the suspended flag; a qualifying
event is delivered to the registered callback exactly when the channel is
not suspended at the moment the event occurs. -/
def SubChannel.step (suspended : Bool) : SubInput → Bool × Option Nat
  | .pause => (true, none)
  | .go => (false, none)
  | .ev n => (suspended, if suspended then none else some n)

/-- Modelled from the spec: running the subscription channel over a sequence
of inputs yields the list of events delivered to the callback with the OK
response type, in order. -/
def SubChannel.run (suspended : Bool) : List SubInput → List Nat
  | [] => []
  | i :: rest =>
      match SubChannel.step suspended i with
      | (s, some n) => n :: SubChannel.run s rest
      | (s, none) => SubChannel.run s rest

/-- Events arriving while the channel stays suspended are all dropped. -/
theorem subchannel_suspended_drops (es : List Nat) :
    SubChannel.run true (es.map SubInput.ev) = [] := by
  induction es with
  | nil => rfl
  | cons hd tl ih => simpa [SubChannel.run, SubChannel.step] using ih

/-- Events arriving while the channel stays active are all delivered. -/
theorem subchannel_active_delivers (es : List Nat) :
    SubChannel.run false (es.map SubInput.ev) = es := by
  induction es with
  | nil => rfl
  | cons hd tl ih => simpa [SubChannel.run, SubChannel.step] using ih

/-- A concrete engine that answers every request with a successful, decodable
response whose payload is the string RESULT. -/
def okEngine : Engine where
  tc_create_context := 9
  tc_json_request := fun _ _ _ => 1
  tc_read_json_response := fun _ =>
    { is_success := true, json := .ok "RESULT" }

/-- A concrete engine that answers every request with a decodable response
whose success flag is false and whose payload is the string ENGERR. -/
def failEngine : Engine where
  tc_create_context := 9
  tc_json_request := fun _ _ _ => 1
  tc_read_json_response := fun _ =>
    { is_success := false, json := .ok "ENGERR" }

/-- A concrete engine whose response payload fails to decode. -/
def badDecodeEngine : Engine where
  tc_create_context := 9
  tc_json_request := fun _ _ _ => 1
  tc_read_json_response := fun _ =>
    { is_success := true, json := .error "malformed payload" }

/-- C1 counterexample: on a decoded response with the success flag false, the
request operation with its default raise behavior raises the Python builtin
Exception, which is not a typed client error, so the claim that a typed
client error is raised fails on the code. -/
theorem c1_counterexample :
    (TonClient.request failEngine 1 "m" "p" true).1 =
      .error (.exception "ENGERR") ∧
    PyExc.isTypedClientError (.exception "ENGERR") = false :=
  ⟨rfl, rfl⟩

/-- C1 amended: for every decoded response with the success flag false, the
request operation with its default raise behavior raises the Python builtin
Exception carrying the engine-provided error value unchanged as its
argument; the payload is preserved verbatim, but the exception is the
generic builtin, not a binding-defined typed error class. -/
theorem c1_request_raises_builtin_with_payload (eng : Engine) (context : Nat)
    (m p : String) (env : RequestDict) (tr : List EngineCall)
    (h : TonClient._request eng context m p = (.ok env, tr))
    (hf : env.success = false) :
    TonClient.request eng context m p true = (.error (.exception env.result), tr) := by
  unfold TonClient.request
  rw [h]
  simp [hf]

/-- C1 witness: the amended statement evaluated on the failing engine. -/
theorem c1_request_raises_builtin_with_payload_witness :
    TonClient.request failEngine 1 "m" "p" true =
      (.error (.exception "ENGERR"),
        [.jsonRequest 1 "m" "p", .readJsonResponse 1, .destroyJsonResponse 1]) :=
  c1_request_raises_builtin_with_payload failEngine 1 "m" "p"
    { success := false, result := "ENGERR" }
    [.jsonRequest 1 "m" "p", .readJsonResponse 1, .destroyJsonResponse 1]
    rfl rfl

/-- C2 counterexample: after destroy_context, a request against the same
client succeeds when the engine answers the stale handle, so the claim that
every request after destruction fails with a ContextInvalid error is false
on the binding code. -/
theorem c2_counterexample :
    (TonClient._request okEngine
      ((ClientPy.destroy_context ⟨7⟩).1).ctx "version" "null").1 =
        .ok { success := true, result := "RESULT" } :=
  rfl

/-- C2 amended: destroy_context forwards destruction to the engine and does
not mark the handle retired; the client state is unchanged, and a subsequent
request forwards the stale handle to the engine exactly as before
destruction, so any failure must come from the engine, not the binding. -/
theorem c2_destroy_leaves_handle_unchecked (eng : Engine) (c : HLTonClient)
    (m p : String) :
    (ClientPy.destroy_context c).1 = c ∧
    (ClientPy.destroy_context c).2 = .destroyContext c.ctx ∧
    TonClient._request eng ((ClientPy.destroy_context c).1).ctx m p =
      TonClient._request eng c.ctx m p :=
  ⟨rfl, rfl, rfl⟩

/-- C3: client creation issues exactly one setup call on the new context
carrying the caller config merged over the defaults, where a caller-supplied
key always wins and defaults fill every omitted key. -/
theorem c3_init_merges_and_issues_one_setup (created_ctx : Nat)
    (config : List (String × ConfigVal)) (k : String) :
    (ClientPy.TonClient_init created_ctx config).2 =
      [(created_ctx, "setup",
        pyDictMerge ClientPy.TON_CLIENT_DEFAULT_SETUP config)] ∧
    (∀ v, config.lookup k = some v →
      (pyDictMerge ClientPy.TON_CLIENT_DEFAULT_SETUP config).lookup k = some v) ∧
    (config.lookup k = none →
      (pyDictMerge ClientPy.TON_CLIENT_DEFAULT_SETUP config).lookup k =
        ClientPy.TON_CLIENT_DEFAULT_SETUP.lookup k) :=
  ⟨rfl, fun _v h => pyDictMerge_lookup_caller _ _ _ _ h,
    fun h => pyDictMerge_lookup_default _ _ _ h⟩

/-- C3 witness: a caller-supplied access key wins over the default and an
omitted timeout keeps its default in the merged configuration. -/
theorem c3_witness :
    (pyDictMerge ClientPy.TON_CLIENT_DEFAULT_SETUP
      [("accessKey", ConfigVal.str "secret")]).lookup "accessKey" =
        some (ConfigVal.str "secret") ∧
    (pyDictMerge ClientPy.TON_CLIENT_DEFAULT_SETUP
      [("accessKey", ConfigVal.str "secret")]).lookup "waitForTimeout" =
        some (ConfigVal.int 30000) := by
  refine ⟨(c3_init_merges_and_issues_one_setup 0
    [("accessKey", ConfigVal.str "secret")] "accessKey").2.1 _ rfl, ?_⟩
  have h := (c3_init_merges_and_issues_one_setup 0
    [("accessKey", ConfigVal.str "secret")] "waitForTimeout").2.2 rfl
  rw [h]
  rfl

/-- C4: library resolution maps windows to a dll path, darwin to a dylib
path, linux to an so path, and any other lowered platform name to a
RuntimeError raised before any context is created: the init chain then makes
no engine call at all. -/
theorem c4_platform_mapping (eng : Engine) (base_dir system : String) :
    (pyLower system = "windows" →
      ∃ stem, LibPy.get_lib_basename base_dir system = .ok (stem ++ ".dll")) ∧
    (pyLower system = "darwin" →
      ∃ stem, LibPy.get_lib_basename base_dir system = .ok (stem ++ ".dylib")) ∧
    (pyLower system = "linux" →
      ∃ stem, LibPy.get_lib_basename base_dir system = .ok (stem ++ ".so")) ∧
    (pyLower system ≠ "windows" → pyLower system ≠ "darwin" →
      pyLower system ≠ "linux" →
      ∃ msg, LibPy.get_lib_basename base_dir system = .error (.runtimeError msg) ∧
        LibPy.TonClient_init eng base_dir system =
          (.error (.runtimeError msg), [])) := by
  refine ⟨fun h => ?_, fun h => ?_, fun h => ?_, fun h1 h2 h3 => ?_⟩
  · exact ⟨LibPy.LIB_DIR base_dir ++ "/" ++ LibPy.LIB_FILENAME, by
      simp [LibPy.get_lib_basename, h, LibPy.lib_ext_dict, List.lookup,
        String.append_assoc]⟩
  · exact ⟨LibPy.LIB_DIR base_dir ++ "/" ++ LibPy.LIB_FILENAME, by
      simp [LibPy.get_lib_basename, h, LibPy.lib_ext_dict, List.lookup,
        String.append_assoc]⟩
  · exact ⟨LibPy.LIB_DIR base_dir ++ "/" ++ LibPy.LIB_FILENAME, by
      simp [LibPy.get_lib_basename, h, LibPy.lib_ext_dict, List.lookup,
        String.append_assoc]⟩
  · have b1 : (pyLower system == "windows") = false := beq_eq_false_iff_ne.mpr h1
    have b2 : (pyLower system == "darwin") = false := beq_eq_false_iff_ne.mpr h2
    have b3 : (pyLower system == "linux") = false := beq_eq_false_iff_ne.mpr h3
    have hl : LibPy.lib_ext_dict.lookup (pyLower system) = none := by
      simp [LibPy.lib_ext_dict, List.lookup, b1, b2, b3]
    refine ⟨"No library for current platform \"" ++
      pyCapitalize (pyLower system) ++ "\"", ?_, ?_⟩
    · simp [LibPy.get_lib_basename, hl]
    · simp [LibPy.TonClient_init, LibPy.get_lib_basename, hl]

/-- C4 witness: the mapping evaluated on the Linux platform name and on an
unmapped platform name. -/
theorem c4_platform_mapping_witness :
    (∃ stem, LibPy.get_lib_basename "/opt" "Linux" = .ok (stem ++ ".so")) ∧
    (∃ msg, LibPy.get_lib_basename "/opt" "SunOS" =
      .error (.runtimeError msg) ∧
      LibPy.TonClient_init okEngine "/opt" "SunOS" =
        (.error (.runtimeError msg), [])) :=
  ⟨(c4_platform_mapping okEngine "/opt" "Linux").2.2.1 (by decide),
   (c4_platform_mapping okEngine "/opt" "SunOS").2.2.2
     (by decide) (by decide) (by decide)⟩

/-- C5: evaluation of the low-level request at a response whose payload
fails to decode shows that the response-destroy call is skipped on the
decode-failure exit path, while a decodable response is destroyed exactly
once; the code leaks the engine-owned response when decoding fails. -/
theorem c5_decode_failure_skips_destroy :
    (TonClient._request badDecodeEngine 1 "version" "null").1 =
      .error (.jsonDecodeError "malformed payload") ∧
    EngineCall.destroyJsonResponse 1 ∉
      (TonClient._request badDecodeEngine 1 "version" "null").2 ∧
    (TonClient._request okEngine 1 "version" "null").2.count
      (EngineCall.destroyJsonResponse 1) = 1 := by
  refine ⟨rfl, by decide, by decide⟩

/-- C6 counterexample: a decoded response with the success flag false still
carries its payload under the result key and has no error key at all, so
the claim that a result is present only on success and an error value is
present on failure is false on the code. -/
theorem c6_counterexample :
    (TonClient._request failEngine 1 "m" "p").1 =
      .ok { success := false, result := "ENGERR" } ∧
    List.lookup "error"
      (RequestDict.toAList { success := false, result := "ENGERR" }) = none ∧
    List.lookup "result"
      (RequestDict.toAList { success := false, result := "ENGERR" }) =
        some (.jsonEntry "ENGERR") :=
  ⟨rfl, rfl, rfl⟩

/-- C6 amended: every decoded response envelope contains a boolean success
flag and a result entry that is always present and holds the decoded
payload, the result on success and the error payload on failure; there is
never a separate error entry. -/
theorem c6_envelope_shape (eng : Engine) (context : Nat) (m p : String)
    (env : RequestDict) (tr : List EngineCall)
    (_h : TonClient._request eng context m p = (.ok env, tr)) :
    env.toAList =
      [("success", .boolEntry env.success), ("result", .jsonEntry env.result)] ∧
    List.lookup "result" env.toAList = some (.jsonEntry env.result) ∧
    List.lookup "error" env.toAList = none :=
  ⟨rfl, rfl, rfl⟩

/-- C6 witness: the amended statement evaluated on the successful engine. -/
theorem c6_envelope_shape_witness :
    List.lookup "error"
      (RequestDict.toAList { success := true, result := "RESULT" }) = none :=
  (c6_envelope_shape okEngine 1 "m" "p" { success := true, result := "RESULT" }
    [.jsonRequest 1 "m" "p", .readJsonResponse 1, .destroyJsonResponse 1]
    rfl).2.2

/-- C7 counterexample: the tonsdk default setup record holds no list value
anywhere; its endpoint entry is the single string net.ton.dev under the key
baseUrl and there is no servers key, so the claim that the default record
contains an endpoint list fails for this cited record. -/
theorem c7_counterexample :
    LibPy.TON_CLIENT_DEFAULT_SETUP.all (fun kv => !kv.2.isList) = true ∧
    List.lookup "baseUrl" LibPy.TON_CLIENT_DEFAULT_SETUP =
      some (.str "net.ton.dev") ∧
    List.lookup "servers" LibPy.TON_CLIENT_DEFAULT_SETUP = none := by
  decide

/-- C7 amended: the high-level default setup record contains exactly eight
entries with the documented values, its endpoint entry being the servers
list; the low-level record carries the same retry, timeout, growth and
access-key defaults but a single base URL string instead of an endpoint
list. -/
theorem c7_default_values :
    ClientPy.TON_CLIENT_DEFAULT_SETUP.length = 8 ∧
    List.lookup "servers" ClientPy.TON_CLIENT_DEFAULT_SETUP =
      some (.strList ["http://localhost"]) ∧
    List.lookup "messageRetriesCount" ClientPy.TON_CLIENT_DEFAULT_SETUP =
      some (.int 1) ∧
    List.lookup "messageExpirationTimeout" ClientPy.TON_CLIENT_DEFAULT_SETUP =
      some (.int 50000) ∧
    List.lookup "messageExpirationTimeoutGrowFactor"
      ClientPy.TON_CLIENT_DEFAULT_SETUP = some (.flt 15 1) ∧
    List.lookup "messageProcessingTimeout" ClientPy.TON_CLIENT_DEFAULT_SETUP =
      some (.int 50000) ∧
    List.lookup "messageProcessingTimeoutGrowFactor"
      ClientPy.TON_CLIENT_DEFAULT_SETUP = some (.flt 15 1) ∧
    List.lookup "waitForTimeout" ClientPy.TON_CLIENT_DEFAULT_SETUP =
      some (.int 30000) ∧
    List.lookup "accessKey" ClientPy.TON_CLIENT_DEFAULT_SETUP =
      some (.str "") ∧
    List.lookup "baseUrl" LibPy.TON_CLIENT_DEFAULT_SETUP =
      some (.str LibPy.DEVNET_BASE_URL) ∧
    (["messageRetriesCount", "messageExpirationTimeout",
      "messageExpirationTimeoutGrowFactor", "messageProcessingTimeout",
      "messageProcessingTimeoutGrowFactor", "waitForTimeout",
      "accessKey"].all (fun k =>
        List.lookup k LibPy.TON_CLIENT_DEFAULT_SETUP ==
          List.lookup k ClientPy.TON_CLIENT_DEFAULT_SETUP)) = true := by
  decide

/-- C8: in the spec-modelled subscription channel, an event arriving while
the subscription is suspended is dropped and never delivered even after
resume, an event after resume is delivered, and in the concrete scenario of
one qualifying event during suspension and one after resume exactly one OK
delivery is observed, matching the second event; in general every event
while suspended is dropped and every event while active is delivered. -/
theorem c8_suspend_drops_resume_delivers (e1 e2 : Nat) (es : List Nat) :
    SubChannel.run false
      [SubInput.pause, SubInput.ev e1, SubInput.go, SubInput.ev e2] = [e2] ∧
    SubChannel.run true (es.map SubInput.ev) = [] ∧
    SubChannel.run false (es.map SubInput.ev) = es :=
  ⟨rfl, subchannel_suspended_drops es, subchannel_active_delivers es⟩

/-- C9: the string-format adapter wraps the unmodified input string in a
one-entry dict keyed base64, hex or text according to the tag, and raises
ValueError on any other tag. -/
theorem c9_str_type_dict (string fmt : String) :
    (fmt = "base64" →
      TonClient._str_type_dict string fmt = .ok [("base64", string)]) ∧
    (fmt = "hex" →
      TonClient._str_type_dict string fmt = .ok [("hex", string)]) ∧
    (fmt = "text" →
      TonClient._str_type_dict string fmt = .ok [("text", string)]) ∧
    (fmt ≠ "base64" → fmt ≠ "hex" → fmt ≠ "text" →
      TonClient._str_type_dict string fmt =
        .error (.valueError "One of base64, hex, text should be provided")) := by
  refine ⟨fun h => ?_, fun h => ?_, fun h => ?_, fun h1 h2 h3 => ?_⟩
  · subst h; rfl
  · subst h; rfl
  · subst h; rfl
  · simp [TonClient._str_type_dict, TonClient.TYPE_BASE64, TonClient.TYPE_HEX,
      TonClient.TYPE_TEXT, h1, h2, h3]

/-- C9 witness: the adapter evaluated at a hex tag and at an unknown tag. -/
theorem c9_str_type_dict_witness :
    TonClient._str_type_dict "abc" "hex" = .ok [("hex", "abc")] ∧
    TonClient._str_type_dict "abc" "dec" =
      .error (.valueError "One of base64, hex, text should be provided") :=
  ⟨(c9_str_type_dict "abc" "hex").2.1 rfl,
   (c9_str_type_dict "abc" "dec").2.2.2 (by decide) (by decide) (by decide)⟩

/-- C10: with the raise flag cleared, the request operation never raises on
a decoded engine failure: it returns the result entry of the response dict
unchanged regardless of the success flag, so an error payload comes back to
the caller as if it were a result. -/
theorem c10_no_raise_returns_result (eng : Engine) (context : Nat)
    (m p : String) (env : RequestDict) (tr : List EngineCall)
    (h : TonClient._request eng context m p = (.ok env, tr)) :
    TonClient.request eng context m p false = (.ok env.result, tr) := by
  unfold TonClient.request
  rw [h]
  simp

/-- C10 witness: a failed response returned as a plain result value. -/
theorem c10_no_raise_returns_result_witness :
    TonClient.request failEngine 1 "m" "p" false =
      (.ok "ENGERR",
        [.jsonRequest 1 "m" "p", .readJsonResponse 1, .destroyJsonResponse 1]) :=
  c10_no_raise_returns_result failEngine 1 "m" "p"
    { success := false, result := "ENGERR" }
    [.jsonRequest 1 "m" "p", .readJsonResponse 1, .destroyJsonResponse 1] rfl
